import Mathlib

/-!
Shallow embedding of the two server-side relay handlers of the
weave-ai-assist repository (the upload-file and chat-completion edge
functions) together with the declarative row-level-security policy set
of its SQL migration.

External services (the managed database, the object-storage bucket and
the third-party completion API) are modelled as an explicit environment
record of oracles.  Each handler is a pure function from a parsed
request and such an environment to an HTTP response paired with a trace
of the side effects it attempted (project fetches, upstream calls,
storage writes, row inserts), recorded in the order the code performs
them.  JavaScript truthiness of the validated values (absent form/JSON
fields, empty strings) is modelled explicitly.
-/

namespace Weave

/-- One chat message as exchanged with the completion API: a role/content pair. -/
structure Msg where
  role : String
  content : String
deriving DecidableEq, Repr

/-- An HTTP response: a status code and a JSON body of shape `β`. -/
structure HttpResponse (β : Type) where
  status : Nat
  body : β
deriving DecidableEq, Repr

/-- JavaScript truthiness of a possibly-absent string: absent/null (here
`none`) and the empty string are falsy, every other string is truthy. -/
def jsStrFalsy : Option String → Bool
  | none => true
  | some s => s == ""

/-- JavaScript `a || b` for a possibly-null string `a` and a string
default `b`: the default is used when `a` is null or empty. -/
def jsOrString : Option String → String → String
  | none, d => d
  | some s, d => if s == "" then d else s

/-- The row of `public.projects` as selected by the completion relay
(`.select('system_prompt').eq('id', projectId).single()`); the column is
nullable in the schema. -/
structure ProjectRow where
  system_prompt : Option String
deriving DecidableEq, Repr

/-- The upstream completion API response as the relay consumes it:
`ok`/`status` plus the body text for the error path, and
`choices[0].message.content` plus `usage` for the success path. -/
structure UpstreamResp where
  ok : Bool
  status : Nat
  bodyText : String
  content : String
  usage : String
deriving DecidableEq, Repr

/-- A row the completion relay inserts into `public.messages`. -/
structure MessageInsert where
  chat_id : String
  role : String
  content : String
deriving DecidableEq, Repr

/-- Parsed JSON body (plus HTTP method) of a completion-relay request;
`none` models an absent or null JSON field. -/
structure ChatRequest where
  method : String
  messages : Option (List Msg)
  chatId : Option String
  projectId : Option String

/-- Oracles for the completion relay's external calls: the project
fetch keyed by the queried id, the configured upstream API key, the
upstream call keyed by the sent message array, and the message insert
keyed by the inserted row (`none` means success, `some e` an error). -/
structure ChatEnv where
  projectFetch : String → Except String ProjectRow
  openaiApiKey : Option String
  upstream : List Msg → UpstreamResp
  insertMessage : MessageInsert → Option String

/-- JSON bodies the completion relay can produce. -/
inductive ChatRespBody
  | empty
  | success (message : String) (usage : String)
  | error (err : String)
deriving DecidableEq, Repr

/-- Side effects attempted by one completion-relay invocation, in the
order the code performs them. -/
structure ChatEffects where
  projectFetches : List String := []
  upstreamCalls : List (List Msg) := []
  inserts : List MessageInsert := []
deriving DecidableEq, Repr

/-- Result of one completion-relay invocation. -/
structure ChatResult where
  response : HttpResponse ChatRespBody
  effects : ChatEffects
deriving DecidableEq, Repr

/-- Default used when the stored system prompt is null or empty. -/
def defaultSystemPrompt : String := "You are a helpful AI assistant."

/-- Message of the completion relay's missing-parameter throw. -/
def chatMissingParamsMsg : String :=
  "Missing required parameters: messages, chatId, and projectId"

/-- The catch block of the completion relay: a thrown error becomes a
500 response with an `error` JSON envelope. -/
def chatErr (msg : String) (eff : ChatEffects) : ChatResult :=
  { response := { status := 500, body := ChatRespBody.error msg }, effects := eff }

/-- The chat-completion edge function.  Mirrors the source line by
line: OPTIONS preflight, truthiness validation of `messages`, `chatId`,
`projectId`, project fetch via `.single()`, construction of
`openaiMessages` with the `||` fallback, API-key check, upstream call,
non-ok check carrying status and body text, message insert, and the
success envelope; every throw is routed through `chatErr`. -/
def chatCompletionHandler (req : ChatRequest) (env : ChatEnv) : ChatResult :=
  if req.method = "OPTIONS" then
    { response := { status := 200, body := ChatRespBody.empty }, effects := {} }
  else
    match req.messages, req.chatId, req.projectId with
    | some messages, some chatId, some projectId =>
      if chatId = "" ∨ projectId = "" then
        chatErr chatMissingParamsMsg {}
      else
        match env.projectFetch projectId with
        | Except.error _ =>
          chatErr "Failed to fetch project details" { projectFetches := [projectId] }
        | Except.ok project =>
          let openaiMessages : List Msg :=
            { role := "system",
              content := jsOrString project.system_prompt defaultSystemPrompt } :: messages
          if jsStrFalsy env.openaiApiKey then
            chatErr "OpenAI API key not configured" { projectFetches := [projectId] }
          else
            let resp := env.upstream openaiMessages
            if resp.ok = false then
              chatErr ("OpenAI API error: " ++ toString resp.status ++ " " ++ resp.bodyText)
                { projectFetches := [projectId], upstreamCalls := [openaiMessages] }
            else
              let ins : MessageInsert :=
                { chat_id := chatId, role := "assistant", content := resp.content }
              match env.insertMessage ins with
              | some _ =>
                chatErr "Failed to save assistant message"
                  { projectFetches := [projectId], upstreamCalls := [openaiMessages],
                    inserts := [ins] }
              | none =>
                { response :=
                    { status := 200, body := ChatRespBody.success resp.content resp.usage },
                  effects :=
                    { projectFetches := [projectId], upstreamCalls := [openaiMessages],
                      inserts := [ins] } }
    | _, _, _ => chatErr chatMissingParamsMsg {}

/-- The file blob the upload relay receives through the multipart form
(`name`, byte `size`, MIME type; the raw bytes are opaque to the relay).
`mimeType` embeds the blob's `type` property (`type` is reserved in
Lean). -/
structure FileBlob where
  name : String
  size : Nat
  mimeType : String
deriving DecidableEq, Repr

/-- A row the upload relay inserts into `public.files`; `fileType`
embeds the `type` column. -/
structure FileRow where
  project_id : String
  name : String
  size : Nat
  fileType : String
  storage_path : String
deriving DecidableEq, Repr

/-- The third-party mirror API's response as the relay consumes it
(`ok`, `id` from the JSON success body, the body text otherwise). -/
structure MirrorResp where
  ok : Bool
  id : String
  bodyText : String
deriving DecidableEq, Repr

/-- Parsed multipart form (plus HTTP method) of an upload-relay
request; `none` models an absent field (`formData.get` returning
null). -/
structure UploadRequest where
  method : String
  file : Option FileBlob
  projectId : Option String
  userId : Option String

/-- Oracles for the upload relay's external calls: the value of
`crypto.randomUUID()`, the storage write keyed by path and blob, the
metadata insert keyed by the inserted row (`none` means success), the
configured mirror API key, and the mirror call keyed by the blob
(`Except.error` models a thrown network error, which the code
swallows). -/
structure UploadEnv where
  uuid : String
  storageUpload : String → FileBlob → Option String
  insertFile : FileRow → Option String
  openaiApiKey : Option String
  mirror : FileBlob → Except String MirrorResp

/-- JSON bodies the upload relay can produce. -/
inductive UploadRespBody
  | empty
  | success (file : FileRow) (openaiFileId : Option String) (message : String)
  | error (err : String)
deriving DecidableEq, Repr

/-- Side effects attempted by one upload-relay invocation:
object-storage writes and deletes (by path), metadata inserts, and the
number of mirror calls attempted. -/
structure UploadEffects where
  storagePuts : List String := []
  storageDeletes : List String := []
  fileInserts : List FileRow := []
  mirrorCalls : Nat := 0
deriving DecidableEq, Repr

/-- Result of one upload-relay invocation. -/
structure UploadResult where
  response : HttpResponse UploadRespBody
  effects : UploadEffects
deriving DecidableEq, Repr

/-- Message of the upload relay's missing-parameter throw. -/
def uploadMissingParamsMsg : String :=
  "Missing required parameters: file, projectId, and userId"

/-- The catch block of the upload relay: a thrown error becomes a 500
response with an `error` JSON envelope. -/
def uploadErr (msg : String) (eff : UploadEffects) : UploadResult :=
  { response := { status := 500, body := UploadRespBody.error msg }, effects := eff }

/-- JavaScript `str.split('.')` on the character list of a string:
splits at every dot, keeping empty segments, and yields one (empty)
segment for the empty string — exactly the JS semantics. -/
def jsSplitDot : List Char → List (List Char)
  | [] => [[]]
  | c :: rest =>
    if c = '.' then [] :: jsSplitDot rest
    else
      match jsSplitDot rest with
      | [] => [[c]]
      | g :: gs => (c :: g) :: gs

/-- JavaScript `name.split('.').pop()`: the substring after the last
dot (the whole name when it has no dot, as in JS). -/
def jsExt (name : String) : String :=
  String.mk ((jsSplitDot name.data).getLastD [])

/-- The mirror threshold: 20 MiB (the code's `20 * 1024 * 1024`). -/
def mirrorSizeLimit : Nat := 20 * 1024 * 1024

/-- The upload-file edge function.  Mirrors the source line by line:
OPTIONS preflight, truthiness validation of `file`, `projectId`,
`userId`, derivation of `filePath = userId/randomUUID.ext`, the storage
write, the `public.files` metadata insert, the best-effort mirror to
the third-party API when a key is configured and the size is at most
20 MiB (any mirror failure is swallowed), and the success envelope;
every throw is routed through `uploadErr`. -/
def uploadFileHandler (req : UploadRequest) (env : UploadEnv) : UploadResult :=
  if req.method = "OPTIONS" then
    { response := { status := 200, body := UploadRespBody.empty }, effects := {} }
  else
    match req.file, req.projectId, req.userId with
    | some file, some projectId, some userId =>
      if projectId = "" ∨ userId = "" then
        uploadErr uploadMissingParamsMsg {}
      else
        let filePath := userId ++ "/" ++ (env.uuid ++ "." ++ jsExt file.name)
        match env.storageUpload filePath file with
        | some _ =>
          uploadErr "Failed to upload file to storage" { storagePuts := [filePath] }
        | none =>
          let row : FileRow :=
            { project_id := projectId, name := file.name, size := file.size,
              fileType := file.mimeType, storage_path := filePath }
          match env.insertFile row with
          | some _ =>
            uploadErr "Failed to save file metadata"
              { storagePuts := [filePath], fileInserts := [row] }
          | none =>
            if jsStrFalsy env.openaiApiKey = false ∧ file.size ≤ mirrorSizeLimit then
              let openaiFileId : Option String :=
                match env.mirror file with
                | Except.error _ => none
                | Except.ok m => if m.ok then some m.id else none
              { response :=
                  { status := 200,
                    body := UploadRespBody.success row openaiFileId
                      "File uploaded successfully" },
                effects :=
                  { storagePuts := [filePath], fileInserts := [row], mirrorCalls := 1 } }
            else
              { response :=
                  { status := 200,
                    body := UploadRespBody.success row none "File uploaded successfully" },
                effects :=
                  { storagePuts := [filePath], fileInserts := [row], mirrorCalls := 0 } }
    | _, _, _ => uploadErr uploadMissingParamsMsg {}

/-- SQL commands a row-level-security policy can cover. -/
inductive SqlCmd
  | select
  | insert
  | update
  | delete
deriving DecidableEq, Repr

/-- One `CREATE POLICY` statement: its name, the table it is on, and
the command it covers.  The USING/WITH CHECK ownership predicates are
not needed for the properties stated here. -/
structure RlsPolicy where
  policyName : String
  tableName : String
  cmd : SqlCmd
deriving DecidableEq, Repr

/-- Every `CREATE POLICY` statement of the migration, in source
order. -/
def rlsPolicies : List RlsPolicy := [
  { policyName := "Users can view own profile", tableName := "profiles", cmd := SqlCmd.select },
  { policyName := "Users can create own profile", tableName := "profiles", cmd := SqlCmd.insert },
  { policyName := "Users can update own profile", tableName := "profiles", cmd := SqlCmd.update },
  { policyName := "Users can view own projects", tableName := "projects", cmd := SqlCmd.select },
  { policyName := "Users can create own projects", tableName := "projects", cmd := SqlCmd.insert },
  { policyName := "Users can update own projects", tableName := "projects", cmd := SqlCmd.update },
  { policyName := "Users can delete own projects", tableName := "projects", cmd := SqlCmd.delete },
  { policyName := "Users can view chats from own projects", tableName := "chats", cmd := SqlCmd.select },
  { policyName := "Users can create chats in own projects", tableName := "chats", cmd := SqlCmd.insert },
  { policyName := "Users can update chats from own projects", tableName := "chats", cmd := SqlCmd.update },
  { policyName := "Users can delete chats from own projects", tableName := "chats", cmd := SqlCmd.delete },
  { policyName := "Users can view messages from own chats", tableName := "messages", cmd := SqlCmd.select },
  { policyName := "Users can create messages in own chats", tableName := "messages", cmd := SqlCmd.insert },
  { policyName := "Users can view files from own projects", tableName := "files", cmd := SqlCmd.select },
  { policyName := "Users can create files in own projects", tableName := "files", cmd := SqlCmd.insert },
  { policyName := "Users can delete files from own projects", tableName := "files", cmd := SqlCmd.delete },
  { policyName := "Users can upload files to own folders", tableName := "storage.objects", cmd := SqlCmd.insert },
  { policyName := "Users can view files from own folders", tableName := "storage.objects", cmd := SqlCmd.select },
  { policyName := "Users can delete files from own folders", tableName := "storage.objects", cmd := SqlCmd.delete }]

/-- Tables the migration enables row-level security on. -/
def rlsEnabledTables : List String :=
  ["profiles", "projects", "chats", "messages", "files"]

/-- Postgres row-level security is default-deny on RLS-enabled tables:
a command on a table is permitted to a requester only when some policy
on that table covers the command. -/
def rlsAllows (table : String) (cmd : SqlCmd) : Bool :=
  rlsPolicies.any (fun p => p.tableName == table && p.cmd == cmd)

/-- The CHECK constraint of `public.messages.role`:
`role IN ('user', 'assistant')`. -/
def messagesRoleCheck (role : String) : Bool :=
  role == "user" || role == "assistant"

/-- Ownership facts about the caller-supplied identifiers that the
relays could in principle consult but do not: whether the chat belongs
to the project, and whether the requesting user owns the project or
the chat.  The relays run with the service-role credential, which
bypasses the row-level-security checks that would otherwise encode
these facts. -/
structure OwnershipFacts where
  chatBelongsToProject : Bool
  requesterOwnsProject : Bool
  requesterOwnsChat : Bool
  userOwnsProject : Bool
deriving DecidableEq, Repr

/-- The completion relay seen together with the ownership facts of its
identifiers; the handler ignores them. -/
def chatCompletionWithOwnership (o : OwnershipFacts) (req : ChatRequest)
    (env : ChatEnv) : ChatResult :=
  let _ := o
  chatCompletionHandler req env

/-- The upload relay seen together with the ownership facts of its
identifiers; the handler ignores them. -/
def uploadFileWithOwnership (o : OwnershipFacts) (req : UploadRequest)
    (env : UploadEnv) : UploadResult :=
  let _ := o
  uploadFileHandler req env

/-- C1: every completion-relay request that reaches the upstream call
sends the caller-supplied history with exactly one system-role entry
holding the fetched project's (truthy) stored system prompt prepended
at position 0. -/
theorem chat_upstream_prepends_system_prompt (msgs : List Msg) (c p s : String)
    (env : ChatEnv) (hc : c ≠ "") (hp : p ≠ "")
    (hfetch : env.projectFetch p = Except.ok { system_prompt := some s })
    (hs : s ≠ "") (hkey : jsStrFalsy env.openaiApiKey = false) :
    (chatCompletionHandler
        { method := "POST", messages := some msgs, chatId := some c, projectId := some p }
        env).effects.upstreamCalls =
      [{ role := "system", content := s } :: msgs] := by
  simp only [chatCompletionHandler, hfetch, hkey, jsOrString, beq_iff_eq, if_neg hs,
    reduceCtorEq, reduceIte, if_neg (by simp [hc, hp] : ¬(c = "" ∨ p = ""))]
  split
  next h => exact absurd h (by decide)
  next =>
    split
    · rfl
    · split <;> rfl

/-- Witness for C1 at the spec's scenario: `messages=[{role:"user",
content:"hi"}]` and stored prompt `"You are terse."` yield exactly the
2-element upstream array. -/
theorem chat_upstream_prepends_system_prompt_witness :
    (chatCompletionHandler
        { method := "POST", messages := some [{ role := "user", content := "hi" }],
          chatId := some "chat-1", projectId := some "proj-1" }
        { projectFetch := fun _ => Except.ok { system_prompt := some "You are terse." },
          openaiApiKey := some "sk-test",
          upstream := fun _ =>
            { ok := true, status := 200, bodyText := "", content := "ok", usage := "u" },
          insertMessage := fun _ => none }).effects.upstreamCalls =
      [[{ role := "system", content := "You are terse." },
        { role := "user", content := "hi" }]] :=
  chat_upstream_prepends_system_prompt [{ role := "user", content := "hi" }]
    "chat-1" "proj-1" "You are terse." _ (by decide) (by decide) rfl (by decide) rfl

/-- C10: when the fetched project's stored system prompt is null or the
empty string, the completion relay substitutes the literal default
system prompt in the prepended system entry. -/
theorem chat_empty_prompt_falls_back_to_default (msgs : List Msg) (c p : String)
    (sp : Option String) (env : ChatEnv) (hc : c ≠ "") (hp : p ≠ "")
    (hfetch : env.projectFetch p = Except.ok { system_prompt := sp })
    (hsp : sp = none ∨ sp = some "")
    (hkey : jsStrFalsy env.openaiApiKey = false) :
    (chatCompletionHandler
        { method := "POST", messages := some msgs, chatId := some c, projectId := some p }
        env).effects.upstreamCalls =
      [{ role := "system", content := "You are a helpful AI assistant." } :: msgs] := by
  have hor : jsOrString sp defaultSystemPrompt = "You are a helpful AI assistant." := by
    rcases hsp with h | h <;> simp [h, jsOrString, defaultSystemPrompt]
  simp only [chatCompletionHandler, hfetch, hkey, hor, reduceCtorEq, reduceIte,
    if_neg (by simp [hc, hp] : ¬(c = "" ∨ p = ""))]
  split
  next h => exact absurd h (by decide)
  next =>
    split
    · rfl
    · split <;> rfl

/-- Witness for C10: a project row whose stored prompt is null yields
the default system entry upstream. -/
theorem chat_empty_prompt_falls_back_to_default_witness :
    (chatCompletionHandler
        { method := "POST", messages := some [{ role := "user", content := "hi" }],
          chatId := some "chat-1", projectId := some "proj-1" }
        { projectFetch := fun _ => Except.ok { system_prompt := none },
          openaiApiKey := some "sk-test",
          upstream := fun _ =>
            { ok := true, status := 200, bodyText := "", content := "ok", usage := "u" },
          insertMessage := fun _ => none }).effects.upstreamCalls =
      [[{ role := "system", content := "You are a helpful AI assistant." },
        { role := "user", content := "hi" }]] :=
  chat_empty_prompt_falls_back_to_default [{ role := "user", content := "hi" }]
    "chat-1" "proj-1" none _ (by decide) (by decide) rfl (Or.inl rfl) rfl

/-- C3: when the upstream completion API answers non-ok, the relay
responds 500 with the envelope carrying the upstream status and body
text verbatim, and no Message row is inserted. -/
theorem chat_upstream_error_propagated_no_insert (msgs : List Msg) (c p : String)
    (proj : ProjectRow) (r : UpstreamResp) (env : ChatEnv) (hc : c ≠ "") (hp : p ≠ "")
    (hfetch : env.projectFetch p = Except.ok proj)
    (hkey : jsStrFalsy env.openaiApiKey = false)
    (hup : env.upstream
        ({ role := "system",
           content := jsOrString proj.system_prompt defaultSystemPrompt } :: msgs) = r)
    (hok : r.ok = false) :
    (chatCompletionHandler
        { method := "POST", messages := some msgs, chatId := some c, projectId := some p }
        env).response =
      { status := 500,
        body := ChatRespBody.error
          ("OpenAI API error: " ++ toString r.status ++ " " ++ r.bodyText) } ∧
    (chatCompletionHandler
        { method := "POST", messages := some msgs, chatId := some c, projectId := some p }
        env).effects.inserts = [] := by
  simp only [chatCompletionHandler, hfetch, hkey, hup, hok, reduceCtorEq, reduceIte,
    if_neg (by simp [hc, hp] : ¬(c = "" ∨ p = "")),
    if_neg (by decide : ¬("POST" = "OPTIONS")), if_pos rfl]
  exact ⟨rfl, rfl⟩

/-- Witness for C3: a 429 upstream answer with body text
`rate limited` yields the verbatim 500 envelope and an empty insert
trace. -/
theorem chat_upstream_error_propagated_no_insert_witness :
    (chatCompletionHandler
        { method := "POST", messages := some [{ role := "user", content := "hi" }],
          chatId := some "chat-1", projectId := some "proj-1" }
        { projectFetch := fun _ => Except.ok { system_prompt := some "You are terse." },
          openaiApiKey := some "sk-test",
          upstream := fun _ =>
            { ok := false, status := 429, bodyText := "rate limited", content := "",
              usage := "" },
          insertMessage := fun _ => none }).response =
      { status := 500,
        body := ChatRespBody.error "OpenAI API error: 429 rate limited" } ∧
    (chatCompletionHandler
        { method := "POST", messages := some [{ role := "user", content := "hi" }],
          chatId := some "chat-1", projectId := some "proj-1" }
        { projectFetch := fun _ => Except.ok { system_prompt := some "You are terse." },
          openaiApiKey := some "sk-test",
          upstream := fun _ =>
            { ok := false, status := 429, bodyText := "rate limited", content := "",
              usage := "" },
          insertMessage := fun _ => none }).effects.inserts = [] :=
  chat_upstream_error_propagated_no_insert [{ role := "user", content := "hi" }]
    "chat-1" "proj-1" { system_prompt := some "You are terse." }
    { ok := false, status := 429, bodyText := "rate limited", content := "", usage := "" }
    _ (by decide) (by decide) rfl rfl rfl rfl

/-- A required completion-relay field is missing in the JavaScript
truthiness sense: `messages` absent/null, or `chatId`/`projectId`
absent, null or empty. -/
def chatParamsMissing (req : ChatRequest) : Prop :=
  req.messages = none ∨ req.chatId = none ∨ req.chatId = some "" ∨
    req.projectId = none ∨ req.projectId = some ""

/-- A required upload-relay field is missing in the JavaScript
truthiness sense: `file` absent/null, or `projectId`/`userId` absent,
null or empty. -/
def uploadParamsMissing (req : UploadRequest) : Prop :=
  req.file = none ∨ req.projectId = none ∨ req.projectId = some "" ∨
    req.userId = none ∨ req.userId = some ""

/-- C4: a request to either relay with any required field missing gets
the 500 `error` envelope naming the missing parameters, and triggers no
storage write, no database access and no upstream or mirror call. -/
theorem relays_missing_params_error_no_effects :
    (∀ (req : ChatRequest) (env : ChatEnv), req.method ≠ "OPTIONS" →
      chatParamsMissing req →
      chatCompletionHandler req env = chatErr chatMissingParamsMsg {}) ∧
    (∀ (req : UploadRequest) (env : UploadEnv), req.method ≠ "OPTIONS" →
      uploadParamsMissing req →
      uploadFileHandler req env = uploadErr uploadMissingParamsMsg {}) := by
  constructor
  · rintro ⟨method, messages, chatId, projectId⟩ env hm hmiss
    simp only [chatParamsMissing] at hmiss
    simp only [ne_eq] at hm
    cases messages with
    | none => cases chatId <;> cases projectId <;> simp_all [chatCompletionHandler]
    | some msgs =>
      cases chatId with
      | none => cases projectId <;> simp_all [chatCompletionHandler]
      | some c =>
        cases projectId with
        | none => simp_all [chatCompletionHandler]
        | some p =>
          have hcp : c = "" ∨ p = "" := by
            rcases hmiss with h | h | h | h | h <;> simp_all
          simp [chatCompletionHandler, hm, if_pos hcp]
  · rintro ⟨method, file, projectId, userId⟩ env hm hmiss
    simp only [uploadParamsMissing] at hmiss
    simp only [ne_eq] at hm
    cases file with
    | none => cases projectId <;> cases userId <;> simp_all [uploadFileHandler]
    | some blob =>
      cases projectId with
      | none => cases userId <;> simp_all [uploadFileHandler]
      | some p =>
        cases userId with
        | none => simp_all [uploadFileHandler]
        | some u =>
          have hpu : p = "" ∨ u = "" := by
            rcases hmiss with h | h | h | h | h <;> simp_all
          simp [uploadFileHandler, hm, if_pos hpu]

/-- Witness for C4: a chat request lacking `chatId` and an upload
request with an empty `userId` both get the missing-parameter envelope
and an empty effect trace. -/
theorem relays_missing_params_error_no_effects_witness :
    chatCompletionHandler
        { method := "POST", messages := some [{ role := "user", content := "hi" }],
          chatId := none, projectId := some "proj-1" }
        { projectFetch := fun _ => Except.error "unused",
          openaiApiKey := none, upstream := fun _ =>
            { ok := true, status := 200, bodyText := "", content := "", usage := "" },
          insertMessage := fun _ => none } =
      chatErr chatMissingParamsMsg {} ∧
    uploadFileHandler
        { method := "POST",
          file := some { name := "a.txt", size := 5, mimeType := "text/plain" },
          projectId := some "proj-1", userId := some "" }
        { uuid := "u-1", storageUpload := fun _ _ => none, insertFile := fun _ => none,
          openaiApiKey := none, mirror := fun _ => Except.error "unused" } =
      uploadErr uploadMissingParamsMsg {} :=
  ⟨relays_missing_params_error_no_effects.1 _ _ (by decide) (Or.inr (Or.inl rfl)),
   relays_missing_params_error_no_effects.2 _ _ (by decide)
     (Or.inr (Or.inr (Or.inr (Or.inr rfl))))⟩

/-- Exhaustive description of one completion-relay run: the OPTIONS
preflight, the missing-parameter envelope, or truthy identifiers
followed by one of the five dataflow outcomes (fetch error, missing
key, upstream error, insert error, success). -/
theorem chatCompletionHandler_runs (req : ChatRequest) (env : ChatEnv) :
    (req.method = "OPTIONS" ∧
      chatCompletionHandler req env =
        { response := { status := 200, body := ChatRespBody.empty }, effects := {} }) ∨
    chatCompletionHandler req env = chatErr chatMissingParamsMsg {} ∨
    (∃ msgs c p, req.messages = some msgs ∧ req.chatId = some c ∧ req.projectId = some p ∧
      c ≠ "" ∧ p ≠ "" ∧
      (chatCompletionHandler req env =
          chatErr "Failed to fetch project details" { projectFetches := [p] } ∨
       ∃ proj, env.projectFetch p = Except.ok proj ∧
         (chatCompletionHandler req env =
             chatErr "OpenAI API key not configured" { projectFetches := [p] } ∨
          (jsStrFalsy env.openaiApiKey = false ∧
           ∃ M r ins,
             M = ({ role := "system",
                    content := jsOrString proj.system_prompt defaultSystemPrompt } :: msgs :
                    List Msg) ∧
             r = env.upstream M ∧
             ins = ({ chat_id := c, role := "assistant", content := r.content } :
                    MessageInsert) ∧
             ((r.ok = false ∧
                chatCompletionHandler req env =
                  chatErr ("OpenAI API error: " ++ toString r.status ++ " " ++ r.bodyText)
                    { projectFetches := [p], upstreamCalls := [M] }) ∨
              (r.ok = true ∧ ∃ e, env.insertMessage ins = some e ∧
                chatCompletionHandler req env =
                  chatErr "Failed to save assistant message"
                    { projectFetches := [p], upstreamCalls := [M], inserts := [ins] }) ∨
              (r.ok = true ∧ env.insertMessage ins = none ∧
                chatCompletionHandler req env =
                  { response :=
                      { status := 200, body := ChatRespBody.success r.content r.usage },
                    effects :=
                      { projectFetches := [p], upstreamCalls := [M],
                        inserts := [ins] } })))))) := by
  rcases req with ⟨method, messages, chatId, projectId⟩
  by_cases hm : method = "OPTIONS"
  · exact Or.inl ⟨hm, by simp [chatCompletionHandler, hm]⟩
  · cases messages with
    | none => exact Or.inr (Or.inl (by simp [chatCompletionHandler, hm]))
    | some msgs =>
      cases chatId with
      | none => exact Or.inr (Or.inl (by simp [chatCompletionHandler, hm]))
      | some c =>
        cases projectId with
        | none => exact Or.inr (Or.inl (by simp [chatCompletionHandler, hm]))
        | some p =>
          by_cases hcp : c = "" ∨ p = ""
          · exact Or.inr (Or.inl (by simp [chatCompletionHandler, hm, if_pos hcp]))
          · have hc : c ≠ "" := fun h => hcp (Or.inl h)
            have hp : p ≠ "" := fun h => hcp (Or.inr h)
            refine Or.inr (Or.inr ⟨msgs, c, p, rfl, rfl, rfl, hc, hp, ?_⟩)
            cases hfetch : env.projectFetch p with
            | error e =>
              exact Or.inl (by simp [chatCompletionHandler, hm, if_neg hcp, hfetch])
            | ok proj =>
              refine Or.inr ⟨proj, rfl, ?_⟩
              by_cases hkey : jsStrFalsy env.openaiApiKey
              · exact Or.inl
                  (by simp [chatCompletionHandler, hm, if_neg hcp, hfetch, hkey])
              · rw [Bool.not_eq_true] at hkey
                refine Or.inr ⟨hkey, _, _, _, rfl, rfl, rfl, ?_⟩
                cases hok : (env.upstream
                    ({ role := "system",
                       content := jsOrString proj.system_prompt defaultSystemPrompt }
                      :: msgs)).ok with
                | false =>
                  exact Or.inl ⟨rfl,
                    by simp [chatCompletionHandler, hm, if_neg hcp, hfetch, hkey, hok]⟩
                | true =>
                  cases hins : env.insertMessage
                      { chat_id := c, role := "assistant",
                        content := (env.upstream
                          ({ role := "system",
                             content := jsOrString proj.system_prompt defaultSystemPrompt }
                            :: msgs)).content } with
                  | some e =>
                    exact Or.inr (Or.inl ⟨rfl, e, rfl,
                      by simp [chatCompletionHandler, hm, if_neg hcp, hfetch, hkey, hok,
                        hins]⟩)
                  | none =>
                    exact Or.inr (Or.inr ⟨rfl, rfl,
                      by simp [chatCompletionHandler, hm, if_neg hcp, hfetch, hkey, hok,
                        hins]⟩)

/-- C2: every success response of the completion relay is preceded by
exactly one attempted assistant-row insert for the supplied chat id,
and that insert succeeded; and whenever the attempted insert fails,
the response is the 500 persistence-error envelope, so the generated
assistant text is not returned to the caller. -/
theorem chat_persists_assistant_row_before_reply (req : ChatRequest) (env : ChatEnv) :
    (∀ m u, (chatCompletionHandler req env).response.body = ChatRespBody.success m u →
      ∃ c, req.chatId = some c ∧
        (chatCompletionHandler req env).effects.inserts =
          [{ chat_id := c, role := "assistant", content := m }] ∧
        env.insertMessage { chat_id := c, role := "assistant", content := m } = none) ∧
    (∀ i e, (chatCompletionHandler req env).effects.inserts = [i] →
      env.insertMessage i = some e →
      (chatCompletionHandler req env).response =
        { status := 500,
          body := ChatRespBody.error "Failed to save assistant message" }) := by
  rcases chatCompletionHandler_runs req env with ⟨_, h⟩ | h |
    ⟨msgs, c, p, hmsg, hcid, hpid, hc, hp, h | ⟨proj, hfetch, h |
      ⟨hkey, M, r, ins, hM, hr, hinsdef, ⟨hok, h⟩ | ⟨hok, e0, hie, h⟩ | ⟨hok, hie, h⟩⟩⟩⟩
  · simp [h]
  · simp [h, chatErr]
  · simp [h, chatErr]
  · simp [h, chatErr]
  · simp [h, chatErr]
  · simp [h, chatErr]
  · constructor
    · intro m u hb
      rw [h] at hb
      simp only [ChatRespBody.success.injEq] at hb
      obtain ⟨hm', hu'⟩ := hb
      subst hm'
      refine ⟨c, hcid, ?_, ?_⟩
      · rw [h, hinsdef]
      · rw [← hinsdef]
        exact hie
    · intro i e hi he
      rw [h] at hi
      simp only [List.cons.injEq, and_true] at hi
      rw [← hi] at he
      rw [hie] at he
      exact absurd he (by simp)

/-- Request fixture for the C2 witness. -/
def c2Req : ChatRequest :=
  { method := "POST", messages := some [{ role := "user", content := "hi" }],
    chatId := some "chat-1", projectId := some "proj-1" }

/-- Environment fixture for the C2 witness in which the insert
succeeds. -/
def c2EnvOk : ChatEnv :=
  { projectFetch := fun _ => Except.ok { system_prompt := some "You are terse." },
    openaiApiKey := some "sk-test",
    upstream := fun _ =>
      { ok := true, status := 200, bodyText := "", content := "Hello!", usage := "u1" },
    insertMessage := fun _ => none }

/-- Environment fixture for the C2 witness in which the insert
fails. -/
def c2EnvBad : ChatEnv :=
  { projectFetch := fun _ => Except.ok { system_prompt := some "You are terse." },
    openaiApiKey := some "sk-test",
    upstream := fun _ =>
      { ok := true, status := 200, bodyText := "", content := "Hello!", usage := "u1" },
    insertMessage := fun _ => some "db down" }

/-- Witness for C2: a successful run inserts exactly the produced
assistant row, and a run whose insert fails answers with the
persistence-error envelope. -/
theorem chat_persists_assistant_row_before_reply_witness :
    (∃ c, c2Req.chatId = some c ∧
      (chatCompletionHandler c2Req c2EnvOk).effects.inserts =
        [{ chat_id := c, role := "assistant", content := "Hello!" }] ∧
      c2EnvOk.insertMessage { chat_id := c, role := "assistant", content := "Hello!" } =
        none) ∧
    (chatCompletionHandler c2Req c2EnvBad).response =
      { status := 500, body := ChatRespBody.error "Failed to save assistant message" } :=
  ⟨(chat_persists_assistant_row_before_reply c2Req c2EnvOk).1 "Hello!" "u1" rfl,
   (chat_persists_assistant_row_before_reply c2Req c2EnvBad).2
     { chat_id := "chat-1", role := "assistant", content := "Hello!" } "db down" rfl rfl⟩

/-- The success response the upload relay produces: the inserted File
row, the optional mirror file id, and the fixed success message. -/
def uploadOkResp (row : FileRow) (oid : Option String) : HttpResponse UploadRespBody :=
  { status := 200, body := UploadRespBody.success row oid "File uploaded successfully" }

/-- The mirror outcome as the upload relay computes `openaiFileId`: a
thrown mirror error or a non-ok mirror response leaves it null. -/
def mirrorFileId (m : Except String MirrorResp) : Option String :=
  match m with
  | Except.error _ => none
  | Except.ok resp => if resp.ok then some resp.id else none

/-- Exhaustive description of one upload-relay run: the OPTIONS
preflight, the missing-parameter envelope, or truthy fields followed by
one of the four dataflow outcomes (storage error, metadata error,
success with one mirror attempt, success without a mirror attempt). -/
theorem uploadFileHandler_runs (req : UploadRequest) (env : UploadEnv) :
    (req.method = "OPTIONS" ∧
      uploadFileHandler req env =
        { response := { status := 200, body := UploadRespBody.empty }, effects := {} }) ∨
    uploadFileHandler req env = uploadErr uploadMissingParamsMsg {} ∨
    (∃ blob p u, req.file = some blob ∧ req.projectId = some p ∧ req.userId = some u ∧
      p ≠ "" ∧ u ≠ "" ∧
      ∃ path, path = u ++ "/" ++ (env.uuid ++ "." ++ jsExt blob.name) ∧
        ((∃ e, env.storageUpload path blob = some e ∧
           uploadFileHandler req env =
             uploadErr "Failed to upload file to storage" { storagePuts := [path] }) ∨
         (env.storageUpload path blob = none ∧
          ∃ row, row = ({ project_id := p, name := blob.name, size := blob.size,
                          fileType := blob.mimeType,
                          storage_path := path } : FileRow) ∧
            ((∃ e, env.insertFile row = some e ∧
               uploadFileHandler req env =
                 uploadErr "Failed to save file metadata"
                   { storagePuts := [path], fileInserts := [row] }) ∨
             (env.insertFile row = none ∧
              ((jsStrFalsy env.openaiApiKey = false ∧ blob.size ≤ mirrorSizeLimit ∧
                uploadFileHandler req env =
                  { response := uploadOkResp row (mirrorFileId (env.mirror blob)),
                    effects := { storagePuts := [path], fileInserts := [row],
                                 mirrorCalls := 1 } }) ∨
               (¬(jsStrFalsy env.openaiApiKey = false ∧ blob.size ≤ mirrorSizeLimit) ∧
                uploadFileHandler req env =
                  { response := uploadOkResp row none,
                    effects := { storagePuts := [path], fileInserts := [row],
                                 mirrorCalls := 0 } }))))))) := by
  rcases req with ⟨method, file, projectId, userId⟩
  by_cases hm : method = "OPTIONS"
  · exact Or.inl ⟨hm, by simp [uploadFileHandler, hm]⟩
  · cases file with
    | none => exact Or.inr (Or.inl (by simp [uploadFileHandler, hm]))
    | some blob =>
      cases projectId with
      | none => exact Or.inr (Or.inl (by simp [uploadFileHandler, hm]))
      | some p =>
        cases userId with
        | none => exact Or.inr (Or.inl (by simp [uploadFileHandler, hm]))
        | some u =>
          by_cases hpu : p = "" ∨ u = ""
          · exact Or.inr (Or.inl (by simp [uploadFileHandler, hm, if_pos hpu]))
          · have hp : p ≠ "" := fun h => hpu (Or.inl h)
            have hu : u ≠ "" := fun h => hpu (Or.inr h)
            refine Or.inr (Or.inr ⟨blob, p, u, rfl, rfl, rfl, hp, hu, _, rfl, ?_⟩)
            cases hsu : env.storageUpload (u ++ "/" ++ (env.uuid ++ "." ++ jsExt blob.name))
                blob with
            | some e =>
              exact Or.inl ⟨e, rfl,
                by simp [uploadFileHandler, hm, if_neg hpu, hsu]⟩
            | none =>
              refine Or.inr ⟨rfl, _, rfl, ?_⟩
              cases hif : env.insertFile
                  { project_id := p, name := blob.name, size := blob.size,
                    fileType := blob.mimeType,
                    storage_path := u ++ "/" ++ (env.uuid ++ "." ++ jsExt blob.name) } with
              | some e =>
                exact Or.inl ⟨e, rfl,
                  by simp [uploadFileHandler, hm, if_neg hpu, hsu, hif]⟩
              | none =>
                refine Or.inr ⟨rfl, ?_⟩
                by_cases hmir : jsStrFalsy env.openaiApiKey = false ∧
                    blob.size ≤ mirrorSizeLimit
                · exact Or.inl ⟨hmir.1, hmir.2,
                    by simp [uploadFileHandler, hm, if_neg hpu, hsu, hif, if_pos hmir,
                      uploadOkResp, mirrorFileId]⟩
                · exact Or.inr ⟨hmir,
                    by simp [uploadFileHandler, hm, if_neg hpu, hsu, hif, if_neg hmir,
                      uploadOkResp]⟩

/-- C9: Message rows are append-only and role-constrained: the
migration enables row-level security on `public.messages` and creates
only SELECT and INSERT policies for it (so neither UPDATE nor DELETE is
permitted under default-deny RLS), the table's CHECK constraint admits
exactly the roles `user` and `assistant`, and every row the completion
relay — the only relay code path inserting messages — inserts carries
role `assistant` and so satisfies the constraint. -/
theorem messages_append_only_role_constrained :
    rlsAllows "messages" SqlCmd.update = false ∧
    rlsAllows "messages" SqlCmd.delete = false ∧
    "messages" ∈ rlsEnabledTables ∧
    (rlsPolicies.filter (fun pol => pol.tableName == "messages")).all
        (fun pol => pol.cmd == SqlCmd.select || pol.cmd == SqlCmd.insert) = true ∧
    messagesRoleCheck "user" = true ∧
    messagesRoleCheck "assistant" = true ∧
    messagesRoleCheck "system" = false ∧
    (∀ (req : ChatRequest) (env : ChatEnv),
      ((chatCompletionHandler req env).effects.inserts.all
        (fun i => i.role == "assistant" && messagesRoleCheck i.role)) = true) := by
  refine ⟨by decide, by decide, by decide, by decide, by decide, by decide, by decide, ?_⟩
  intro req env
  rcases chatCompletionHandler_runs req env with ⟨_, h⟩ | h |
    ⟨msgs, c, p, hmsg, hcid, hpid, hc, hp, h | ⟨proj, hfetch, h |
      ⟨hkey, M, r, ins, hM, hr, hinsdef, ⟨hok, h⟩ | ⟨hok, e0, hie, h⟩ | ⟨hok, hie, h⟩⟩⟩⟩ <;>
    first
    | (simp [h, chatErr]; done)
    | simp [h, chatErr, hinsdef, messagesRoleCheck]

/-- C5: neither relay verifies ownership or consistency of the
caller-supplied identifiers.  Both handlers are invariant under every
change of the ownership facts, the completion relay queries exactly
the supplied `projectId` and inserts into exactly the supplied
`chatId`, and the upload relay inserts metadata under the supplied
`projectId` and writes the object under a path whose first segment is
the supplied `userId`. -/
theorem relays_trust_caller_supplied_ids :
    (∀ (o₁ o₂ : OwnershipFacts) (req : ChatRequest) (env : ChatEnv),
      chatCompletionWithOwnership o₁ req env = chatCompletionWithOwnership o₂ req env) ∧
    (∀ (o₁ o₂ : OwnershipFacts) (req : UploadRequest) (env : UploadEnv),
      uploadFileWithOwnership o₁ req env = uploadFileWithOwnership o₂ req env) ∧
    (∀ (req : ChatRequest) (env : ChatEnv) (pid : String),
      pid ∈ (chatCompletionHandler req env).effects.projectFetches →
      req.projectId = some pid) ∧
    (∀ (req : ChatRequest) (env : ChatEnv) (i : MessageInsert),
      i ∈ (chatCompletionHandler req env).effects.inserts →
      req.chatId = some i.chat_id) ∧
    (∀ (req : UploadRequest) (env : UploadEnv) (row : FileRow),
      row ∈ (uploadFileHandler req env).effects.fileInserts →
      req.projectId = some row.project_id) ∧
    (∀ (req : UploadRequest) (env : UploadEnv) (path : String),
      path ∈ (uploadFileHandler req env).effects.storagePuts →
      ∃ u rest, req.userId = some u ∧ path = u ++ "/" ++ rest) := by
  refine ⟨fun _ _ _ _ => rfl, fun _ _ _ _ => rfl, ?_, ?_, ?_, ?_⟩
  · intro req env pid hmem
    rcases chatCompletionHandler_runs req env with ⟨_, h⟩ | h |
      ⟨msgs, c, p, hmsg, hcid, hpid, hc, hp, h | ⟨proj, hfetch, h |
        ⟨hkey, M, r, ins, hM, hr, hinsdef,
          ⟨hok, h⟩ | ⟨hok, e0, hie, h⟩ | ⟨hok, hie, h⟩⟩⟩⟩ <;>
      rw [h] at hmem <;> simp [chatErr] at hmem <;> simp_all
  · intro req env i hmem
    rcases chatCompletionHandler_runs req env with ⟨_, h⟩ | h |
      ⟨msgs, c, p, hmsg, hcid, hpid, hc, hp, h | ⟨proj, hfetch, h |
        ⟨hkey, M, r, ins, hM, hr, hinsdef,
          ⟨hok, h⟩ | ⟨hok, e0, hie, h⟩ | ⟨hok, hie, h⟩⟩⟩⟩ <;>
      rw [h] at hmem <;> simp [chatErr] at hmem <;> simp_all
  · intro req env row' hmem
    rcases uploadFileHandler_runs req env with ⟨_, h⟩ | h |
      ⟨blob, p, u, hfile, hpid, huid, hp, hu, path, hpath, ⟨e, hsu, h⟩ |
        ⟨hsu, row, hrow, ⟨e, hif, h⟩ | ⟨hif, ⟨hk, hsz, h⟩ | ⟨hmir, h⟩⟩⟩⟩ <;>
      rw [h] at hmem <;> simp [uploadErr, uploadOkResp] at hmem <;> simp_all
  · intro req env path' hmem
    rcases uploadFileHandler_runs req env with ⟨_, h⟩ | h |
      ⟨blob, p, u, hfile, hpid, huid, hp, hu, path, hpath, ⟨e, hsu, h⟩ |
        ⟨hsu, row, hrow, ⟨e, hif, h⟩ | ⟨hif, ⟨hk, hsz, h⟩ | ⟨hmir, h⟩⟩⟩⟩ <;>
      rw [h] at hmem <;> simp [uploadErr, uploadOkResp] at hmem <;>
      exact ⟨u, env.uuid ++ "." ++ jsExt blob.name, huid, hmem.trans hpath⟩

/-- Request fixture for the C5 witness (completion relay). -/
def c5ChatReq : ChatRequest :=
  { method := "POST", messages := some [{ role := "user", content := "hi" }],
    chatId := some "chat-1", projectId := some "proj-1" }

/-- Environment fixture for the C5 witness (completion relay). -/
def c5ChatEnv : ChatEnv :=
  { projectFetch := fun _ => Except.ok { system_prompt := some "You are terse." },
    openaiApiKey := some "sk-test",
    upstream := fun _ =>
      { ok := true, status := 200, bodyText := "", content := "Hello!", usage := "u1" },
    insertMessage := fun _ => none }

/-- Request fixture for the C5 witness (upload relay). -/
def c5UpReq : UploadRequest :=
  { method := "POST",
    file := some { name := "notes.txt", size := 5120, mimeType := "text/plain" },
    projectId := some "proj-9", userId := some "user-7" }

/-- Environment fixture for the C5 witness (upload relay). -/
def c5UpEnv : UploadEnv :=
  { uuid := "uuid-1", storageUpload := fun _ _ => none, insertFile := fun _ => none,
    openaiApiKey := none, mirror := fun _ => Except.error "unreachable" }

/-- Witness for C5: on concrete runs, the fetched project id, the
inserted chat id, the metadata project id and the storage-path prefix
are exactly the caller-supplied identifiers. -/
theorem relays_trust_caller_supplied_ids_witness :
    c5ChatReq.projectId = some "proj-1" ∧
    c5ChatReq.chatId = some "chat-1" ∧
    c5UpReq.projectId = some "proj-9" ∧
    (∃ u rest, c5UpReq.userId = some u ∧ "user-7/uuid-1.txt" = u ++ "/" ++ rest) :=
  ⟨relays_trust_caller_supplied_ids.2.2.1 c5ChatReq c5ChatEnv "proj-1" (by decide),
   relays_trust_caller_supplied_ids.2.2.2.1 c5ChatReq c5ChatEnv
     { chat_id := "chat-1", role := "assistant", content := "Hello!" } (by decide),
   relays_trust_caller_supplied_ids.2.2.2.2.1 c5UpReq c5UpEnv
     { project_id := "proj-9", name := "notes.txt", size := 5120,
       fileType := "text/plain", storage_path := "user-7/uuid-1.txt" } (by decide),
   relays_trust_caller_supplied_ids.2.2.2.2.2 c5UpReq c5UpEnv "user-7/uuid-1.txt"
     (by decide)⟩

/-- C6: a successful upload produces a File row whose `size` is the
uploaded blob's byte size, whose `type` is the MIME type sent, and
whose `storage_path` is the randomized key under the supplied user id
(first path segment `userId/`); the same row is returned in the
success response and inserted exactly once. -/
theorem upload_success_row_matches_blob_and_user_path (blob : FileBlob) (p u : String)
    (env : UploadEnv) (hp : p ≠ "") (hu : u ≠ "")
    (hsu : env.storageUpload (u ++ "/" ++ (env.uuid ++ "." ++ jsExt blob.name)) blob = none)
    (hif : env.insertFile
        { project_id := p, name := blob.name, size := blob.size,
          fileType := blob.mimeType,
          storage_path := u ++ "/" ++ (env.uuid ++ "." ++ jsExt blob.name) } = none) :
    ∃ oid row,
      (uploadFileHandler
          { method := "POST", file := some blob, projectId := some p, userId := some u }
          env).response = uploadOkResp row oid ∧
      (uploadFileHandler
          { method := "POST", file := some blob, projectId := some p, userId := some u }
          env).effects.fileInserts = [row] ∧
      row.size = blob.size ∧ row.fileType = blob.mimeType ∧ row.name = blob.name ∧
      row.project_id = p ∧
      ∃ rest, row.storage_path = u ++ "/" ++ rest := by
  have hpu : ¬(p = "" ∨ u = "") := by simp [hp, hu]
  by_cases hmir : jsStrFalsy env.openaiApiKey = false ∧ blob.size ≤ mirrorSizeLimit
  · exact ⟨mirrorFileId (env.mirror blob),
      { project_id := p, name := blob.name, size := blob.size, fileType := blob.mimeType,
        storage_path := u ++ "/" ++ (env.uuid ++ "." ++ jsExt blob.name) },
      by simp [uploadFileHandler, if_neg hpu, hsu, hif, if_pos hmir, uploadOkResp,
        mirrorFileId],
      by simp [uploadFileHandler, if_neg hpu, hsu, hif, if_pos hmir],
      rfl, rfl, rfl, rfl, env.uuid ++ "." ++ jsExt blob.name, rfl⟩
  · exact ⟨none,
      { project_id := p, name := blob.name, size := blob.size, fileType := blob.mimeType,
        storage_path := u ++ "/" ++ (env.uuid ++ "." ++ jsExt blob.name) },
      by simp [uploadFileHandler, if_neg hpu, hsu, hif, if_neg hmir, uploadOkResp],
      by simp [uploadFileHandler, if_neg hpu, hsu, hif, if_neg hmir],
      rfl, rfl, rfl, rfl, env.uuid ++ "." ++ jsExt blob.name, rfl⟩

/-- Environment fixture for the C6 witness. -/
def c6Env : UploadEnv :=
  { uuid := "uuid-1", storageUpload := fun _ _ => none, insertFile := fun _ => none,
    openaiApiKey := none, mirror := fun _ => Except.error "unreachable" }

/-- Witness for C6 at the spec's scenario: a 5 KB `text/plain` upload
yields a File row with `size = 5120`, the MIME type sent, and a
storage path under `user-7/`. -/
theorem upload_success_row_matches_blob_and_user_path_witness :
    ∃ oid row,
      (uploadFileHandler
          { method := "POST",
            file := some { name := "notes.txt", size := 5120, mimeType := "text/plain" },
            projectId := some "proj-9", userId := some "user-7" }
          c6Env).response = uploadOkResp row oid ∧
      (uploadFileHandler
          { method := "POST",
            file := some { name := "notes.txt", size := 5120, mimeType := "text/plain" },
            projectId := some "proj-9", userId := some "user-7" }
          c6Env).effects.fileInserts = [row] ∧
      row.size = 5120 ∧ row.fileType = "text/plain" ∧ row.name = "notes.txt" ∧
      row.project_id = "proj-9" ∧
      ∃ rest, row.storage_path = "user-7" ++ "/" ++ rest :=
  upload_success_row_matches_blob_and_user_path
    { name := "notes.txt", size := 5120, mimeType := "text/plain" }
    "proj-9" "user-7" c6Env (by decide) (by decide) rfl rfl

/-- C7: when the upload relay reaches the mirroring step, it attempts
exactly one mirror call when a mirror key is configured and the size is
at most 20 MiB, zero mirror calls when no key is configured, and the
caller sees the 200 success envelope whatever the mirror attempt's
outcome. -/
theorem upload_mirror_policy (blob : FileBlob) (p u : String) (env : UploadEnv)
    (hp : p ≠ "") (hu : u ≠ "")
    (hsu : env.storageUpload (u ++ "/" ++ (env.uuid ++ "." ++ jsExt blob.name)) blob = none)
    (hif : env.insertFile
        { project_id := p, name := blob.name, size := blob.size,
          fileType := blob.mimeType,
          storage_path := u ++ "/" ++ (env.uuid ++ "." ++ jsExt blob.name) } = none) :
    ((jsStrFalsy env.openaiApiKey = false ∧ blob.size ≤ mirrorSizeLimit) →
      (uploadFileHandler
          { method := "POST", file := some blob, projectId := some p, userId := some u }
          env).effects.mirrorCalls = 1) ∧
    (env.openaiApiKey = none →
      (uploadFileHandler
          { method := "POST", file := some blob, projectId := some p, userId := some u }
          env).effects.mirrorCalls = 0) ∧
    ((uploadFileHandler
          { method := "POST", file := some blob, projectId := some p, userId := some u }
          env).response.status = 200 ∧
      ∃ oid, (uploadFileHandler
          { method := "POST", file := some blob, projectId := some p, userId := some u }
          env).response.body =
        UploadRespBody.success
          { project_id := p, name := blob.name, size := blob.size,
            fileType := blob.mimeType,
            storage_path := u ++ "/" ++ (env.uuid ++ "." ++ jsExt blob.name) }
          oid "File uploaded successfully") := by
  have hpu : ¬(p = "" ∨ u = "") := by simp [hp, hu]
  by_cases hmir : jsStrFalsy env.openaiApiKey = false ∧ blob.size ≤ mirrorSizeLimit
  · refine ⟨fun _ => ?_, fun hnone => ?_, ?_, ?_⟩
    · simp [uploadFileHandler, if_neg hpu, hsu, hif, if_pos hmir]
    · rw [hnone] at hmir
      exact absurd hmir.1 (by simp [jsStrFalsy])
    · simp [uploadFileHandler, if_neg hpu, hsu, hif, if_pos hmir]
    · exact ⟨mirrorFileId (env.mirror blob),
        by simp [uploadFileHandler, if_neg hpu, hsu, hif, if_pos hmir, mirrorFileId]⟩
  · refine ⟨fun h => absurd h hmir, fun _ => ?_, ?_, ?_⟩
    · simp [uploadFileHandler, if_neg hpu, hsu, hif, if_neg hmir]
    · simp [uploadFileHandler, if_neg hpu, hsu, hif, if_neg hmir]
    · exact ⟨none,
        by simp [uploadFileHandler, if_neg hpu, hsu, hif, if_neg hmir]⟩

/-- Environment fixture for the C7 witness: a configured mirror key
whose mirror call throws. -/
def c7Env : UploadEnv :=
  { uuid := "uuid-1", storageUpload := fun _ _ => none, insertFile := fun _ => none,
    openaiApiKey := some "sk-mirror", mirror := fun _ => Except.error "network down" }

/-- Witness for C7: with a configured key and a small file, exactly one
mirror call is attempted even though it throws, and the caller still
receives the 200 success envelope. -/
theorem upload_mirror_policy_witness :
    (uploadFileHandler
        { method := "POST",
          file := some { name := "notes.txt", size := 5120, mimeType := "text/plain" },
          projectId := some "proj-9", userId := some "user-7" }
        c7Env).effects.mirrorCalls = 1 ∧
    (uploadFileHandler
        { method := "POST",
          file := some { name := "notes.txt", size := 5120, mimeType := "text/plain" },
          projectId := some "proj-9", userId := some "user-7" }
        c7Env).response.status = 200 :=
  ⟨(upload_mirror_policy { name := "notes.txt", size := 5120, mimeType := "text/plain" }
      "proj-9" "user-7" c7Env (by decide) (by decide) rfl rfl).1 (by decide),
   (upload_mirror_policy { name := "notes.txt", size := 5120, mimeType := "text/plain" }
      "proj-9" "user-7" c7Env (by decide) (by decide) rfl rfl).2.2.1⟩

/-- C8: when the storage write succeeds but the metadata insert fails,
the upload relay answers with the metadata-write error envelope, the
written object's path is still in the storage trace, and no
compensating storage delete is performed — indeed no run of the relay
ever deletes a storage object. -/
theorem upload_metadata_failure_leaves_orphan (blob : FileBlob) (p u e : String)
    (env : UploadEnv) (hp : p ≠ "") (hu : u ≠ "")
    (hsu : env.storageUpload (u ++ "/" ++ (env.uuid ++ "." ++ jsExt blob.name)) blob = none)
    (hif : env.insertFile
        { project_id := p, name := blob.name, size := blob.size,
          fileType := blob.mimeType,
          storage_path := u ++ "/" ++ (env.uuid ++ "." ++ jsExt blob.name) } = some e) :
    uploadFileHandler
        { method := "POST", file := some blob, projectId := some p, userId := some u }
        env =
      uploadErr "Failed to save file metadata"
        { storagePuts := [u ++ "/" ++ (env.uuid ++ "." ++ jsExt blob.name)],
          fileInserts :=
            [{ project_id := p, name := blob.name, size := blob.size,
               fileType := blob.mimeType,
               storage_path := u ++ "/" ++ (env.uuid ++ "." ++ jsExt blob.name) }] } ∧
    (uploadFileHandler
        { method := "POST", file := some blob, projectId := some p, userId := some u }
        env).effects.storagePuts =
      [u ++ "/" ++ (env.uuid ++ "." ++ jsExt blob.name)] ∧
    (uploadFileHandler
        { method := "POST", file := some blob, projectId := some p, userId := some u }
        env).effects.storageDeletes = [] ∧
    (∀ (req' : UploadRequest) (env' : UploadEnv),
      (uploadFileHandler req' env').effects.storageDeletes = []) := by
  have hpu : ¬(p = "" ∨ u = "") := by simp [hp, hu]
  refine ⟨?_, ?_, ?_, ?_⟩
  · simp [uploadFileHandler, if_neg hpu, hsu, hif, uploadErr]
  · simp [uploadFileHandler, if_neg hpu, hsu, hif, uploadErr]
  · simp [uploadFileHandler, if_neg hpu, hsu, hif, uploadErr]
  · intro req' env'
    rcases uploadFileHandler_runs req' env' with ⟨_, h⟩ | h |
      ⟨blob', p', u', hfile, hpid, huid, hp', hu', path, hpath, ⟨e', hsu', h⟩ |
        ⟨hsu', row, hrow, ⟨e', hif', h⟩ | ⟨hif', ⟨hk, hsz, h⟩ | ⟨hmir, h⟩⟩⟩⟩ <;>
      simp [h, uploadErr]

/-- Environment fixture for the C8 witness: storage write succeeds,
metadata insert fails. -/
def c8Env : UploadEnv :=
  { uuid := "uuid-1", storageUpload := fun _ _ => none,
    insertFile := fun _ => some "constraint violation",
    openaiApiKey := none, mirror := fun _ => Except.error "unreachable" }

/-- Witness for C8: the metadata-write failure answers the error
envelope while the object's path stays in the put trace with no
delete. -/
theorem upload_metadata_failure_leaves_orphan_witness :
    uploadFileHandler
        { method := "POST",
          file := some { name := "notes.txt", size := 5120, mimeType := "text/plain" },
          projectId := some "proj-9", userId := some "user-7" }
        c8Env =
      uploadErr "Failed to save file metadata"
        { storagePuts := ["user-7" ++ "/" ++ ("uuid-1" ++ "." ++ jsExt "notes.txt")],
          fileInserts :=
            [{ project_id := "proj-9", name := "notes.txt", size := 5120,
               fileType := "text/plain",
               storage_path :=
                 "user-7" ++ "/" ++ ("uuid-1" ++ "." ++ jsExt "notes.txt") }] } ∧
    (uploadFileHandler
        { method := "POST",
          file := some { name := "notes.txt", size := 5120, mimeType := "text/plain" },
          projectId := some "proj-9", userId := some "user-7" }
        c8Env).effects.storagePuts =
      ["user-7" ++ "/" ++ ("uuid-1" ++ "." ++ jsExt "notes.txt")] ∧
    (uploadFileHandler
        { method := "POST",
          file := some { name := "notes.txt", size := 5120, mimeType := "text/plain" },
          projectId := some "proj-9", userId := some "user-7" }
        c8Env).effects.storageDeletes = [] :=
  ⟨(upload_metadata_failure_leaves_orphan
      { name := "notes.txt", size := 5120, mimeType := "text/plain" }
      "proj-9" "user-7" "constraint violation" c8Env (by decide) (by decide) rfl rfl).1,
   (upload_metadata_failure_leaves_orphan
      { name := "notes.txt", size := 5120, mimeType := "text/plain" }
      "proj-9" "user-7" "constraint violation" c8Env (by decide) (by decide) rfl rfl).2.1,
   (upload_metadata_failure_leaves_orphan
      { name := "notes.txt", size := 5120, mimeType := "text/plain" }
      "proj-9" "user-7" "constraint violation" c8Env (by decide) (by decide) rfl rfl).2.2.1⟩

end Weave
